import Mathlib

/-!
A shallow embedding of `src/airmon.py` (zuccaro/airmon): the pure classifier
functions, the snapshot publish step, one iteration of the sampling loop
(`main`'s `while True:` body), the rate-limited google-sheet log gate, and
the display/button handling, together with theorems checking the
specification's claims against the embedding.

Conventions used throughout:
* Python numbers are modelled as `ℤ` where the source handles `int`s and as
  `ℚ` where floats flow in; the only float arithmetic in the modelled code
  is `celsius2fahrenheit` (a single multiply-add, exact in `ℚ` as in the
  spec's "exact linear conversion").
* Python `None` becomes `Option.none`; Python truthiness of a numeric value
  (`if co2:`, `if ftemp:`) is value-is-present-and-nonzero.
* Fallible external calls are parameters of the cycle input: a
  `RuntimeError` from `pm25.read()` is `pmRead = none`, a failing
  `sheet.append_row` is `appendOk = false`.
* Side effects of a cycle (sleeps, the snapshot publish, prometheus gauge
  updates, sheet appends, display renders, backlight writes, warnings) are
  collected as an explicit event list.
-/

set_option linter.unusedVariables false

namespace Airmon

/-- RGB colors produced via `ImageColor.getrgb` in `particles2color`
(src/airmon.py lines 91-103); only these seven named colors occur. -/
inductive Color where
  | green
  | olive
  | yellow
  | orange
  | red
  | purple
  | magenta
  deriving DecidableEq, Repr

/-- `get_pm_description` (src/airmon.py lines 71-83): classifies a
particulate value into an air-quality band string; at 500 and above the
Python function falls off the end and returns `None`. -/
def get_pm_description (val : ℤ) : Option String :=
  if val < 51 then some "good"
  else if val < 101 then some "moderate"
  else if val < 151 then some "usg"
  else if val < 201 then some "unhealthy"
  else if val < 300 then some "very unhealthy"
  else if val < 500 then some "hazardous"
  else none

/-- `celsius2fahrenheit` (src/airmon.py lines 85-87). -/
def celsius2fahrenheit (celsius : ℚ) : ℚ :=
  celsius * 1.8 + 32

/-- `particles2color` (src/airmon.py lines 89-104) restricted to non-`None`
inputs: `c` starts at green and the `if`/`elif` chain means the FIRST
matching condition decides the color.  The first parameter `pm10std` is
unused, exactly as in the source. -/
def particles2color (pm10std pm25std pm100std : ℚ) : Color :=
  if pm25std > 2 ∨ pm100std > 2 then Color.olive
  else if pm25std > 12 ∨ pm100std > 55 then Color.yellow
  else if pm25std > 35.4 ∨ pm100std > 155 then Color.orange
  else if pm25std > 55.4 ∨ pm100std > 254 then Color.red
  else if pm25std > 150 ∨ pm100std > 355 then Color.purple
  else if pm25std > 250 ∨ pm100std > 425 then Color.magenta
  else Color.green

/-- A Python `x > threshold` comparison where `x` may be `None`: comparing
`None` with an `int`/`float` raises `TypeError` (modelled as `Except.error`). -/
def oGt (a : Option ℚ) (b : ℚ) : Except Unit Bool :=
  match a with
  | none => Except.error ()
  | some x => Except.ok (decide (x > b))

/-- Python's short-circuiting `or` on two fallible boolean computations:
the left operand is evaluated first; the right is evaluated only when the
left yields `False`. -/
def pyOr (a b : Except Unit Bool) : Except Unit Bool :=
  match a with
  | Except.error e => Except.error e
  | Except.ok true => Except.ok true
  | Except.ok false => b

/-- `particles2color` (src/airmon.py lines 89-104) with Python `None`
semantics: each `pm25std > n or pm100std > n` condition raises `TypeError`
as soon as a `None` operand is compared. -/
def particles2colorOpt (pm10std pm25std pm100std : Option ℚ) : Except Unit Color :=
  (pyOr (oGt pm25std 2) (oGt pm100std 2)).bind fun b1 =>
  if b1 then Except.ok Color.olive else
  (pyOr (oGt pm25std 12) (oGt pm100std 55)).bind fun b2 =>
  if b2 then Except.ok Color.yellow else
  (pyOr (oGt pm25std 35.4) (oGt pm100std 155)).bind fun b3 =>
  if b3 then Except.ok Color.orange else
  (pyOr (oGt pm25std 55.4) (oGt pm100std 254)).bind fun b4 =>
  if b4 then Except.ok Color.red else
  (pyOr (oGt pm25std 150) (oGt pm100std 355)).bind fun b5 =>
  if b5 then Except.ok Color.purple else
  (pyOr (oGt pm25std 250) (oGt pm100std 425)).bind fun b6 =>
  if b6 then Except.ok Color.magenta else
  Except.ok Color.green

/-- A JSON-serializable value stored in the global `data` dict. -/
inductive JVal where
  | str (s : String)
  | num (q : ℚ)
  deriving DecidableEq, Repr

/-- The dict returned by `pm25.read()` (consumed at src/airmon.py lines
293-302 and iterated at lines 346-347).  Fields are listed in the
dictionary's iteration order: three standard mass concentrations, three
environmental mass concentrations, six particle-count bins.  All values are
integers. -/
structure PMReading where
  pm10std : ℤ
  pm25std : ℤ
  pm100std : ℤ
  pm10env : ℤ
  pm25env : ℤ
  pm100env : ℤ
  part3 : ℤ
  part5 : ℤ
  part10 : ℤ
  part25 : ℤ
  part50 : ℤ
  part100 : ℤ
  deriving DecidableEq, Repr

/-- The startup configuration fixed before the loop: the parsed
command-line flags used inside `main`'s `while True:` body (src/airmon.py
lines 129-143).  Per-sensor enablement is immutable once set. -/
structure Config where
  name : String
  interval : ℤ
  ginterval : ℤ
  google : Bool
  scd40 : Bool
  pct2075 : Bool
  bme280 : Bool
  st7789 : Bool
  pm25 : Bool
  deriving DecidableEq, Repr

/-- The external world's behavior during one loop iteration: clock values,
sensor readings, append-row success, and raw button levels.
`pmRead = none` models `pm25.read()` raising `RuntimeError`;
`appendOk = false` models `sheet.append_row` raising.  `buttonA`/`buttonB`
are the raw `.value` levels (the source reacts when the level is `False`). -/
structure CycleInput where
  nowSec : ℤ
  isoTime : String
  co2val : ℤ
  pmRead : Option PMReading
  bmeTempC : ℚ
  bmeHumidity : ℚ
  bmePressure : ℚ
  pctTempC : ℚ
  appendOk : Bool
  buttonA : Bool
  buttonB : Bool
  deriving DecidableEq, Repr

/-- The mutable state carried across loop iterations: the global `data`
dict served by the JSON server, the variables `co2`, `airqual` and
`logged_time` (which persist across cycles), and the `screen` flag. -/
structure LoopState where
  data : List (String × JVal)
  co2 : Option ℤ
  airqual : Option PMReading
  logged_time : Option ℤ
  screen : Bool
  deriving DecidableEq, Repr

/-- Text lines rendered on the display (src/airmon.py line 358 and 371).
The formatted text content is abstracted; the numeric "next logging"
hint value is kept exactly. -/
inductive Line where
  | dateTime
  | stationAddr
  | tempSummary
  | pmSummary
  | nextLoggingHint (tam : ℤ)
  deriving DecidableEq, Repr

/-- Observable side effects of one loop iteration, in program order. -/
inductive Event where
  | sleep (secs : ℤ)
  | publish (d : List (String × JVal))
  | gaugeSet (gauge : String) (station : String) (v : ℚ)
  | sheetAppendAttempt (now : ℤ)
  | warn
  | displayRender (lines : List Line) (c : Color)
  | backlight (b : Bool)
  deriving DecidableEq, Repr

/-- How one loop iteration ends: fall through to the next iteration,
`break` out of the loop (dual-button gesture), or an uncaught exception
that terminates the process. -/
inductive Outcome where
  | next
  | halt
  | crash
  deriving DecidableEq, Repr

/-- Python truthiness of an optional integer (`if co2:`). -/
def truthyZ : Option ℤ → Bool
  | none => false
  | some z => z != 0

/-- Python truthiness of an optional rational (`if ftemp:`). -/
def truthyQ : Option ℚ → Bool
  | none => false
  | some q => q != 0

/-- The key/value pairs written by `for k in airqual:` (src/airmon.py
lines 346-347): each key is `airmon_` plus the sensor-dict key with spaces
replaced by underscores, in dict iteration order. -/
def airqualFields (r : PMReading) : List (String × JVal) :=
  [("airmon_pm10_standard", JVal.num (r.pm10std : ℚ)),
   ("airmon_pm25_standard", JVal.num (r.pm25std : ℚ)),
   ("airmon_pm100_standard", JVal.num (r.pm100std : ℚ)),
   ("airmon_pm10_env", JVal.num (r.pm10env : ℚ)),
   ("airmon_pm25_env", JVal.num (r.pm25env : ℚ)),
   ("airmon_pm100_env", JVal.num (r.pm100env : ℚ)),
   ("airmon_particles_03um", JVal.num (r.part3 : ℚ)),
   ("airmon_particles_05um", JVal.num (r.part5 : ℚ)),
   ("airmon_particles_10um", JVal.num (r.part10 : ℚ)),
   ("airmon_particles_25um", JVal.num (r.part25 : ℚ)),
   ("airmon_particles_50um", JVal.num (r.part50 : ℚ)),
   ("airmon_particles_100um", JVal.num (r.part100 : ℚ))]

/-- The successive atomic mutations applied to the global `data` dict
during one publish (src/airmon.py lines 328-347): Python rebinds `data` to
a fresh empty dict and then mutates that dict in place, one `update` call
or one per-key assignment at a time, while the JSON server thread can read
`data` at any point.  Each list element is the set of pairs added by one
such atomic mutation. -/
def publishDeltas (cfg : Config) (co2 : Option ℤ) (ftemp : Option ℚ)
    (hum pres : ℚ) (aq : Option PMReading) (iso : String) :
    List (List (String × JVal)) :=
  [[("airmon_time", JVal.str iso)]]
  ++ (if truthyZ co2 then [[("airmon_co2", JVal.num ((co2.getD 0 : ℤ) : ℚ))]] else [])
  ++ (if truthyQ ftemp then [[("airmon_temp", JVal.num (ftemp.getD 0))]] else [])
  ++ (if cfg.bme280 then
        [[("airmon_humidity", JVal.num hum)], [("airmon_pressure", JVal.num pres)]]
      else [])
  ++ (match aq with
      | some r => (airqualFields r).map (fun kv => [kv])
      | none => [])

/-- The dict states a concurrent reader of the global `data` can observe
during one publish: the empty dict right after `data = {}`, then each
partially-populated prefix after each atomic mutation. -/
def publishStates (cfg : Config) (co2 : Option ℤ) (ftemp : Option ℚ)
    (hum pres : ℚ) (aq : Option PMReading) (iso : String) :
    List (List (String × JVal)) :=
  List.scanl (· ++ ·) ([] : List (String × JVal))
    (publishDeltas cfg co2 ftemp hum pres aq iso)

/-- The fully-populated `data` dict at the end of the publish step
(src/airmon.py lines 328-347): the concatenation of all publish deltas. -/
def buildData (cfg : Config) (co2 : Option ℤ) (ftemp : Option ℚ)
    (hum pres : ℚ) (aq : Option PMReading) (iso : String) :
    List (String × JVal) :=
  (publishDeltas cfg co2 ftemp hum pres aq iso).flatten

/-- The initial global `data` set before the servers start (src/airmon.py
line 128): capture time plus the station hostname. -/
def initialData (hostname iso0 : String) : List (String × JVal) :=
  [("airmon_time", JVal.str iso0), ("airmon_station", JVal.str hostname)]

/-- The loop state on entry to the first iteration: `co2`, `airqual` and
`logged_time` start as `None` (src/airmon.py lines 267, 272-273);
`screen` is `True` exactly when the display is enabled (lines 247-254). -/
def initialState (hostname iso0 : String) (cfg : Config) : LoopState :=
  { data := initialData hostname iso0
    co2 := none
    airqual := none
    logged_time := none
    screen := cfg.st7789 }

/-- The effective sleep period: `args.interval`, plus 5 seconds of SCD40
warm-up when the CO2 sensor is enabled (src/airmon.py lines 274-276). -/
def effInterval (cfg : Config) : ℤ :=
  cfg.interval + (if cfg.scd40 then 5 else 0)

/-- The log-gate condition (src/airmon.py line 361): log when no prior
successful append has happened (`logged_time is None`) or when strictly
more than `ginterval` seconds have passed since the last successful one. -/
def shouldLog (ginterval now : ℤ) : Option ℤ → Bool
  | none => true
  | some lt => decide (now - lt > ginterval)

/-- The "time remaining" hint computed when logging is suppressed
(src/airmon.py line 370): the source subtracts the elapsed time from
`args.interval` (the sampling interval), not from `args.ginterval`. -/
def timeRemainingHint (cfg : Config) (now lastLogged : ℤ) : ℤ :=
  cfg.interval - (now - lastLogged)

/-- The google-sheet export step (src/airmon.py lines 360-371).  When
enabled and the gate is open, the `logging.debug` f-string at line 363 is
evaluated BEFORE the `try`: `{ftemp:.2f}` raises an uncaught `TypeError`
when `ftemp` is `None`, and `{bme280.humidity:.2f}` raises an uncaught
`AttributeError` when the BME280 is disabled (`bme280` is `None`) —
modelled as `Except.error`, left-to-right.  Otherwise the append is
attempted, updating `logged_time` only on success (an `append_row`
failure is caught and logged as a warning); when the gate is closed, the
"next logging" hint line is emitted instead.  On the non-crashing paths
returns the events, the new `logged_time`, and any extra display lines. -/
def googleLogStep (cfg : Config) (ftemp : Option ℚ) (now : ℤ) (appendOk : Bool)
    (logged_time : Option ℤ) :
    Except Unit (List Event × Option ℤ × List Line) :=
  if cfg.google then
    if shouldLog cfg.ginterval now logged_time then
      if ftemp = none ∨ cfg.bme280 = false then
        Except.error ()
      else if appendOk then
        Except.ok ([Event.sheetAppendAttempt now], some now, [])
      else
        Except.ok ([Event.sheetAppendAttempt now, Event.warn], logged_time, [])
    else
      Except.ok ([], logged_time,
        [Line.nextLoggingHint (timeRemainingHint cfg now (logged_time.getD 0))])
  else Except.ok ([], logged_time, [])

/-- The prometheus gauge updates for the non-particulate fields,
interleaved with the dict updates in the source (src/airmon.py lines
331-343).  Gauge names are those declared at lines 145-148. -/
def gaugeEventsNonPM (cfg : Config) (co2 : Option ℤ) (ftemp : Option ℚ)
    (inp : CycleInput) : List Event :=
  (if truthyZ co2 then
     [Event.gaugeSet "airmon_co2" cfg.name ((co2.getD 0 : ℤ) : ℚ)] else [])
  ++ (if truthyQ ftemp then
        [Event.gaugeSet "airmon_temperature" cfg.name (ftemp.getD 0)] else [])
  ++ (if cfg.bme280 then
        [Event.gaugeSet "airmon_humidity" cfg.name inp.bmeHumidity,
         Event.gaugeSet "airmon_pressure" cfg.name inp.bmePressure] else [])

/-- The `co2` variable after the SCD40 read of this cycle (src/airmon.py
lines 282-286): overwritten when the sensor is enabled, otherwise it keeps
its previous value (initially `None`).  The data-ready wait is modelled as
immediately ready. -/
def cycleCo2 (cfg : Config) (inp : CycleInput) (st : LoopState) : Option ℤ :=
  if cfg.scd40 then some inp.co2val else st.co2

/-- The `ftemp` variable after the temperature reads (src/airmon.py lines
317-326): the BME280 value is overwritten by the PCT2075 value when both
are enabled. -/
def cycleFtemp (cfg : Config) (inp : CycleInput) : Option ℚ :=
  if cfg.pct2075 then some (celsius2fahrenheit inp.pctTempC)
  else if cfg.bme280 then some (celsius2fahrenheit inp.bmeTempC)
  else none

/-- The `airqual` variable after the particulate read (src/airmon.py lines
291-302): a fresh reading when the sensor is enabled (the failure case is
handled before this is used), otherwise its previous value (initially
`None` and never written). -/
def cycleAirqual (cfg : Config) (inp : CycleInput) (st : LoopState) :
    Option PMReading :=
  if cfg.pm25 then inp.pmRead else st.airqual

/-- The `pm10std`/`pm25std`/`pm100std` (etc.) variables of this cycle
(src/airmon.py lines 288-296): reset to `None` each cycle, populated only
by a fresh successful particulate read. -/
def cyclePMVals (cfg : Config) (inp : CycleInput) : Option PMReading :=
  if cfg.pm25 then inp.pmRead else none

/-- The fully-built `data` dict published by one completed cycle. -/
def cycleData (cfg : Config) (inp : CycleInput) (st : LoopState) :
    List (String × JVal) :=
  buildData cfg (cycleCo2 cfg inp st) (cycleFtemp cfg inp)
    inp.bmeHumidity inp.bmePressure (cycleAirqual cfg inp st) inp.isoTime

/-- The button handling at the end of a cycle (src/airmon.py lines
383-391): a low level on button A turns the screen on, a low level on
button B turns it off, and both low together break out of the loop. -/
def finishButtons (cfg : Config) (inp : CycleInput) (st : LoopState)
    (evs : List Event) : LoopState × List Event × Outcome :=
  if cfg.st7789 then
    let s1 := if !inp.buttonA then true else st.screen
    let s2 := if !inp.buttonB then false else s1
    let evs2 := evs ++ (if !inp.buttonA then [Event.backlight true] else [])
                    ++ (if !inp.buttonB then [Event.backlight false] else [])
    ({ st with screen := s2 }, evs2,
     if !inp.buttonA && !inp.buttonB then Outcome.halt else Outcome.next)
  else (st, evs, Outcome.next)

/-- One iteration of `main`'s `while True:` body (src/airmon.py lines
279-391): sleep, read the enabled sensors (aborting the cycle on a
particulate `RuntimeError`), rebuild and publish the global `data` dict,
update the prometheus gauges, run the rate-limited google-sheet export,
render the display (where `particles2color` on `None` raises an uncaught
`TypeError`), and poll the buttons. -/
def cycleStep (cfg : Config) (inp : CycleInput) (st : LoopState) :
    LoopState × List Event × Outcome :=
  if cfg.pm25 = true ∧ inp.pmRead = none then
    ({ st with co2 := cycleCo2 cfg inp st },
     [Event.sleep (effInterval cfg), Event.warn], Outcome.next)
  else
    let pmvals : Option PMReading := cyclePMVals cfg inp
    let aq := cycleAirqual cfg inp st
    let newData := cycleData cfg inp st
    let stPub : LoopState :=
      { data := newData
        co2 := cycleCo2 cfg inp st
        airqual := aq
        logged_time := st.logged_time
        screen := st.screen }
    let ev1 := [Event.sleep (effInterval cfg), Event.publish newData]
               ++ gaugeEventsNonPM cfg (cycleCo2 cfg inp st) (cycleFtemp cfg inp) inp
    if aq ≠ none ∧ pmvals = none then
      -- `PM10.labels(...).set(None)` etc. would raise; unreachable because
      -- enablement never changes after startup, but modelled faithfully.
      (stPub, ev1, Outcome.crash)
    else
      let ev2 := ev1 ++ (match pmvals with
        | some r =>
          [Event.gaugeSet "airmon_pm1" cfg.name ((r.pm10std : ℤ) : ℚ),
           Event.gaugeSet "airmon_pm25" cfg.name ((r.pm25std : ℤ) : ℚ),
           Event.gaugeSet "airmon_pm10" cfg.name ((r.pm100std : ℤ) : ℚ)]
        | none => [])
      match googleLogStep cfg (cycleFtemp cfg inp) inp.nowSec inp.appendOk
          st.logged_time with
      | Except.error _ =>
        -- uncaught TypeError/AttributeError from the line-363 debug
        -- f-string: the snapshot was already published, `logged_time` is
        -- untouched, and the process dies before append/display/buttons.
        (stPub, ev2, Outcome.crash)
      | Except.ok gl =>
        let ev3 := ev2 ++ gl.1
        let lines := [Line.dateTime, Line.stationAddr, Line.tempSummary,
                      Line.pmSummary] ++ gl.2.2
        if st.screen then
          match particles2colorOpt (pmvals.map fun r => ((r.pm10std : ℤ) : ℚ))
              (pmvals.map fun r => ((r.pm25std : ℤ) : ℚ))
              (pmvals.map fun r => ((r.pm100std : ℤ) : ℚ)) with
          | Except.error _ =>
            ({ stPub with logged_time := gl.2.1 }, ev3, Outcome.crash)
          | Except.ok c =>
            finishButtons cfg inp { stPub with logged_time := gl.2.1 }
              (ev3 ++ [Event.displayRender lines c])
        else
          finishButtons cfg inp { stPub with logged_time := gl.2.1 } ev3

/-- Repeated iterations of the sampling loop over a list of cycle inputs,
stopping early on `break` or on an uncaught exception.  Returns all events
in order and the final loop state. -/
def runLoop (cfg : Config) (st : LoopState) :
    List CycleInput → List Event × LoopState
  | [] => ([], st)
  | inp :: rest =>
    match cycleStep cfg inp st with
    | (st', evs, Outcome.next) =>
      let r := runLoop cfg st' rest
      (evs ++ r.1, r.2)
    | (st', evs, Outcome.halt) => (evs, st')
    | (st', evs, Outcome.crash) => (evs, st')

/-- Whether an event is a google-sheet append attempt. -/
def isAppend : Event → Bool
  | Event.sheetAppendAttempt _ => true
  | _ => false

/-- A configuration with only the google-sheet export enabled
(interval 5s, log interval 300s), used for concrete evaluations. -/
def cfgG : Config :=
  { name := "airmon"
    interval := 5
    ginterval := 300
    google := true
    scd40 := false
    pct2075 := false
    bme280 := false
    st7789 := false
    pm25 := false }

/-- A cycle input at wall-clock second `t` with no sensor activity,
successful appends, and both buttons released (high level). -/
def inpG (t : ℤ) : CycleInput :=
  { nowSec := t
    isoTime := "t"
    co2val := 0
    pmRead := none
    bmeTempC := 0
    bmeHumidity := 0
    bmePressure := 0
    pctTempC := 0
    appendOk := true
    buttonA := true
    buttonB := true }

/-- A configuration with only the SCD40 CO2 sensor enabled. -/
def cfgC6 : Config :=
  { name := "airmon"
    interval := 5
    ginterval := 300
    google := false
    scd40 := true
    pct2075 := false
    bme280 := false
    st7789 := false
    pm25 := false }

/-- A cycle input whose (successful) CO2 reading is 0 ppm. -/
def inpC6 : CycleInput := inpG 0

/-- The loop state at the first iteration under `cfgC6`. -/
def stC6 : LoopState := initialState "airmon" "t0" cfgC6

/-- A configuration with the display and the SCD40 enabled but the
particulate sensor disabled. -/
def cfg10 : Config :=
  { name := "airmon"
    interval := 5
    ginterval := 300
    google := false
    scd40 := false
    pct2075 := false
    bme280 := false
    st7789 := true
    pm25 := false }

/-- The loop state at the first iteration under `cfg10` (screen on). -/
def st10 : LoopState := initialState "airmon" "t0" cfg10

/-- A configuration with only the particulate sensor enabled. -/
def cfgPM : Config :=
  { name := "airmon"
    interval := 5
    ginterval := 300
    google := true
    scd40 := false
    pct2075 := false
    bme280 := false
    st7789 := false
    pm25 := true }

/-- A cycle input at second `t` whose particulate read fails with
`RuntimeError`. -/
def inpPMFail (t : ℤ) : CycleInput := inpG t

/-- A nonzero particulate reading. -/
def pmR : PMReading :=
  { pm10std := 1, pm25std := 3, pm100std := 4
    pm10env := 1, pm25env := 3, pm100env := 4
    part3 := 10, part5 := 11, part10 := 12
    part25 := 13, part50 := 14, part100 := 15 }

/-- A cycle input at second `t` with a successful particulate reading. -/
def inpPMOk (t : ℤ) : CycleInput := { inpG t with pmRead := some pmR }

/-- `cfgG` with the BME280 additionally enabled, so the gate-open debug
logging at src/airmon.py line 363 does not crash and appends are
reachable. -/
def cfgGB : Config := { cfgG with bme280 := true }

/-- `cfgPM` with the BME280 additionally enabled (google sheet, PM25 and
BME280 on). -/
def cfgB : Config := { cfgPM with bme280 := true }

/-! ## Helper lemmas -/

theorem finishButtons_data (cfg : Config) (inp : CycleInput) (st : LoopState)
    (evs : List Event) : ((finishButtons cfg inp st evs).1).data = st.data := by
  unfold finishButtons
  split_ifs <;> rfl

theorem finishButtons_co2 (cfg : Config) (inp : CycleInput) (st : LoopState)
    (evs : List Event) : ((finishButtons cfg inp st evs).1).co2 = st.co2 := by
  unfold finishButtons
  split_ifs <;> rfl

theorem finishButtons_airqual (cfg : Config) (inp : CycleInput) (st : LoopState)
    (evs : List Event) : ((finishButtons cfg inp st evs).1).airqual = st.airqual := by
  unfold finishButtons
  split_ifs <;> rfl

theorem finishButtons_logged (cfg : Config) (inp : CycleInput) (st : LoopState)
    (evs : List Event) :
    ((finishButtons cfg inp st evs).1).logged_time = st.logged_time := by
  unfold finishButtons
  split_ifs <;> rfl

theorem finishButtons_no_crash (cfg : Config) (inp : CycleInput) (st : LoopState)
    (evs : List Event) : (finishButtons cfg inp st evs).2.2 ≠ Outcome.crash := by
  unfold finishButtons
  split_ifs <;> simp

theorem finishButtons_mem (cfg : Config) (inp : CycleInput) (st : LoopState)
    (evs : List Event) (e : Event) (h : e ∈ evs) :
    e ∈ (finishButtons cfg inp st evs).2.1 := by
  unfold finishButtons
  split_ifs <;> simp [h]

theorem finishButtons_publish (cfg : Config) (inp : CycleInput) (st : LoopState)
    (evs : List Event) (d : List (String × JVal))
    (h : Event.publish d ∈ (finishButtons cfg inp st evs).2.1) :
    Event.publish d ∈ evs := by
  unfold finishButtons at h
  split_ifs at h <;> simp_all

theorem pyOr_ok (x y : Bool) :
    pyOr (Except.ok x) (Except.ok y) = Except.ok (x || y) := by
  cases x <;> rfl

theorem particles2colorOpt_some (a b c : ℚ) :
    particles2colorOpt (some a) (some b) (some c) =
      Except.ok (particles2color a b c) := by
  simp only [particles2colorOpt, particles2color, oGt, pyOr_ok, Except.bind,
    Bool.or_eq_true, decide_eq_true_eq]
  split_ifs <;> rfl

theorem particles2colorOpt_pm25_none (a c : Option ℚ) :
    particles2colorOpt a none c = Except.error () := rfl

theorem gaugeEventsNonPM_no_publish (cfg : Config) (co2 : Option ℤ)
    (ftemp : Option ℚ) (inp : CycleInput) (d : List (String × JVal)) :
    Event.publish d ∉ gaugeEventsNonPM cfg co2 ftemp inp := by
  unfold gaugeEventsNonPM
  split_ifs <;> simp

theorem googleLogStep_no_publish (cfg : Config) (ftemp : Option ℚ) (now : ℤ)
    (ok : Bool) (lt : Option ℤ) (d : List (String × JVal))
    (gl : List Event × Option ℤ × List Line)
    (h : googleLogStep cfg ftemp now ok lt = Except.ok gl) :
    Event.publish d ∉ gl.1 := by
  unfold googleLogStep at h
  split_ifs at h <;>
    first
      | (simp only [Except.ok.injEq] at h
         subst h
         simp)
      | simp at h

theorem shouldLog_iff (g now : ℤ) (lt : Option ℤ) :
    shouldLog g now lt = true ↔
      (lt = none ∨ ∃ l, lt = some l ∧ now - l > g) := by
  cases lt <;> simp [shouldLog]

theorem cycleFtemp_some (cfg : Config) (inp : CycleInput)
    (hbme : cfg.bme280 = true) : cycleFtemp cfg inp ≠ none := by
  unfold cycleFtemp
  split_ifs <;> simp_all

theorem googleLogStep_ok (cfg : Config) (ftemp : Option ℚ) (now : ℤ)
    (ok : Bool) (lt : Option ℤ) (hbme : cfg.bme280 = true)
    (hft : ftemp ≠ none) :
    ∃ gl, googleLogStep cfg ftemp now ok lt = Except.ok gl := by
  have hcond : ¬(ftemp = none ∨ cfg.bme280 = false) := by
    rintro (hcc | hcc)
    · exact hft hcc
    · rw [hbme] at hcc
      cases hcc
  unfold googleLogStep
  split_ifs <;>
    first
      | exact ⟨_, rfl⟩
      | exact absurd (by assumption) hcond

theorem googleLogStep_crash (cfg : Config) (ftemp : Option ℚ) (now : ℤ)
    (ok : Bool) (lt : Option ℤ) (hg : cfg.google = true)
    (hopen : shouldLog cfg.ginterval now lt = true)
    (hc : ftemp = none ∨ cfg.bme280 = false) :
    googleLogStep cfg ftemp now ok lt = Except.error () := by
  unfold googleLogStep
  rw [if_pos hg, if_pos hopen, if_pos hc]

theorem cycleStep_state_proj (cfg : Config) (inp : CycleInput) (st : LoopState)
    (h : ¬(cfg.pm25 = true ∧ inp.pmRead = none)) :
    (cycleStep cfg inp st).1.data = cycleData cfg inp st
  ∧ (cycleStep cfg inp st).1.co2 = cycleCo2 cfg inp st
  ∧ (cycleStep cfg inp st).1.airqual = cycleAirqual cfg inp st := by
  unfold cycleStep
  rw [if_neg h]
  by_cases h2 : cycleAirqual cfg inp st ≠ none ∧ cyclePMVals cfg inp = none
  · rw [if_pos h2]
    exact ⟨rfl, rfl, rfl⟩
  · rw [if_neg h2]
    cases hgl : googleLogStep cfg (cycleFtemp cfg inp) inp.nowSec inp.appendOk
        st.logged_time with
    | error e =>
      exact ⟨rfl, rfl, rfl⟩
    | ok gl =>
      simp only [hgl]
      by_cases h3 : st.screen = true
      · rw [if_pos h3]
        cases hx : cyclePMVals cfg inp with
        | none =>
          exact ⟨rfl, rfl, rfl⟩
        | some r =>
          simp only [hx, Option.map_some', particles2colorOpt_some]
          exact ⟨finishButtons_data _ _ _ _, finishButtons_co2 _ _ _ _,
                 finishButtons_airqual _ _ _ _⟩
      · rw [if_neg h3]
        exact ⟨finishButtons_data _ _ _ _, finishButtons_co2 _ _ _ _,
               finishButtons_airqual _ _ _ _⟩

theorem cycleStep_logged (cfg : Config) (inp : CycleInput) (st : LoopState)
    (h : ¬(cfg.pm25 = true ∧ inp.pmRead = none))
    (h2 : ¬(cycleAirqual cfg inp st ≠ none ∧ cyclePMVals cfg inp = none))
    (gl : List Event × Option ℤ × List Line)
    (hgl : googleLogStep cfg (cycleFtemp cfg inp) inp.nowSec inp.appendOk
        st.logged_time = Except.ok gl) :
    (cycleStep cfg inp st).1.logged_time = gl.2.1 := by
  unfold cycleStep
  rw [if_neg h, if_neg h2]
  simp only [hgl]
  by_cases h3 : st.screen = true
  · rw [if_pos h3]
    cases hx : cyclePMVals cfg inp with
    | none =>
      rfl
    | some r =>
      simp only [hx, Option.map_some', particles2colorOpt_some]
      exact finishButtons_logged _ _ _ _
  · rw [if_neg h3]
    exact finishButtons_logged _ _ _ _

theorem cycleStep_publish_self (cfg : Config) (inp : CycleInput) (st : LoopState)
    (h : ¬(cfg.pm25 = true ∧ inp.pmRead = none)) :
    Event.publish (cycleData cfg inp st) ∈ (cycleStep cfg inp st).2.1 := by
  unfold cycleStep
  rw [if_neg h]
  by_cases h2 : cycleAirqual cfg inp st ≠ none ∧ cyclePMVals cfg inp = none
  · rw [if_pos h2]; simp
  · rw [if_neg h2]
    cases hgl : googleLogStep cfg (cycleFtemp cfg inp) inp.nowSec inp.appendOk
        st.logged_time with
    | error e =>
      simp only [hgl]
      simp
    | ok gl =>
      simp only [hgl]
      by_cases h3 : st.screen = true
      · rw [if_pos h3]
        cases hx : cyclePMVals cfg inp with
        | none =>
          simp only [hx, Option.map_none', particles2colorOpt_pm25_none]
          simp
        | some r =>
          simp only [hx, Option.map_some', particles2colorOpt_some]
          exact finishButtons_mem _ _ _ _ _ (by simp)
      · rw [if_neg h3]
        exact finishButtons_mem _ _ _ _ _ (by simp)

theorem cycleStep_publish_inv (cfg : Config) (inp : CycleInput) (st : LoopState)
    (d : List (String × JVal))
    (hd : Event.publish d ∈ (cycleStep cfg inp st).2.1) :
    d = cycleData cfg inp st := by
  unfold cycleStep at hd
  by_cases h : cfg.pm25 = true ∧ inp.pmRead = none
  · rw [if_pos h] at hd
    simp at hd
  · rw [if_neg h] at hd
    have hg := gaugeEventsNonPM_no_publish cfg (cycleCo2 cfg inp st)
      (cycleFtemp cfg inp) inp d
    by_cases h2 : cycleAirqual cfg inp st ≠ none ∧ cyclePMVals cfg inp = none
    · rw [if_pos h2] at hd
      simp [hg] at hd
      exact hd
    · rw [if_neg h2] at hd
      cases hgl : googleLogStep cfg (cycleFtemp cfg inp) inp.nowSec
          inp.appendOk st.logged_time with
      | error e =>
        simp only [hgl] at hd
        cases hx : cyclePMVals cfg inp with
        | none =>
          simp only [hx] at hd
          simp [hg] at hd
          exact hd
        | some r =>
          simp only [hx] at hd
          simp [hg] at hd
          exact hd
      | ok gl =>
        have hl := googleLogStep_no_publish cfg (cycleFtemp cfg inp)
          inp.nowSec inp.appendOk st.logged_time d gl hgl
        simp only [hgl] at hd
        by_cases h3 : st.screen = true
        · rw [if_pos h3] at hd
          cases hx : cyclePMVals cfg inp with
          | none =>
            simp only [hx, Option.map_none', particles2colorOpt_pm25_none] at hd
            simp [hg, hl] at hd
            exact hd
          | some r =>
            simp only [hx, Option.map_some', particles2colorOpt_some] at hd
            have hm := finishButtons_publish _ _ _ _ _ hd
            simp [hg, hl] at hm
            exact hm
        · rw [if_neg h3] at hd
          cases hx : cyclePMVals cfg inp with
          | none =>
            simp only [hx] at hd
            have hm := finishButtons_publish _ _ _ _ _ hd
            simp [hg, hl] at hm
            exact hm
          | some r =>
            simp only [hx] at hd
            have hm := finishButtons_publish _ _ _ _ _ hd
            simp [hg, hl] at hm
            exact hm

theorem buildData_keys (cfg : Config) (co2 : Option ℤ) (ftemp : Option ℚ)
    (hum pres : ℚ) (aq : Option PMReading) (iso : String) :
    (buildData cfg co2 ftemp hum pres aq iso).map Prod.fst =
      ["airmon_time"]
      ++ (if truthyZ co2 then ["airmon_co2"] else [])
      ++ (if truthyQ ftemp then ["airmon_temp"] else [])
      ++ (if cfg.bme280 then ["airmon_humidity", "airmon_pressure"] else [])
      ++ (match aq with
          | some _ => ["airmon_pm10_standard", "airmon_pm25_standard",
              "airmon_pm100_standard", "airmon_pm10_env", "airmon_pm25_env",
              "airmon_pm100_env", "airmon_particles_03um",
              "airmon_particles_05um", "airmon_particles_10um",
              "airmon_particles_25um", "airmon_particles_50um",
              "airmon_particles_100um"]
          | none => []) := by
  unfold buildData publishDeltas airqualFields
  cases aq <;> split_ifs <;> simp

theorem buildData_mem_time (cfg : Config) (co2 : Option ℤ) (ftemp : Option ℚ)
    (hum pres : ℚ) (aq : Option PMReading) (iso : String) :
    "airmon_time" ∈ (buildData cfg co2 ftemp hum pres aq iso).map Prod.fst := by
  rw [buildData_keys]
  simp

theorem buildData_no_station (cfg : Config) (co2 : Option ℤ) (ftemp : Option ℚ)
    (hum pres : ℚ) (aq : Option PMReading) (iso : String) :
    "airmon_station" ∉ (buildData cfg co2 ftemp hum pres aq iso).map Prod.fst := by
  rw [buildData_keys]
  cases aq <;> split_ifs <;> simp_all

theorem buildData_mem_co2 (cfg : Config) (co2 : Option ℤ) (ftemp : Option ℚ)
    (hum pres : ℚ) (aq : Option PMReading) (iso : String) :
    ("airmon_co2" ∈ (buildData cfg co2 ftemp hum pres aq iso).map Prod.fst) ↔
      truthyZ co2 = true := by
  rw [buildData_keys]
  cases aq <;> split_ifs <;> simp_all

theorem buildData_mem_temp (cfg : Config) (co2 : Option ℤ) (ftemp : Option ℚ)
    (hum pres : ℚ) (aq : Option PMReading) (iso : String) :
    ("airmon_temp" ∈ (buildData cfg co2 ftemp hum pres aq iso).map Prod.fst) ↔
      truthyQ ftemp = true := by
  rw [buildData_keys]
  cases aq <;> split_ifs <;> simp_all

theorem buildData_mem_humidity (cfg : Config) (co2 : Option ℤ) (ftemp : Option ℚ)
    (hum pres : ℚ) (aq : Option PMReading) (iso : String) :
    ("airmon_humidity" ∈ (buildData cfg co2 ftemp hum pres aq iso).map Prod.fst) ↔
      cfg.bme280 = true := by
  rw [buildData_keys]
  cases aq <;> split_ifs <;> simp_all

theorem buildData_mem_pressure (cfg : Config) (co2 : Option ℤ) (ftemp : Option ℚ)
    (hum pres : ℚ) (aq : Option PMReading) (iso : String) :
    ("airmon_pressure" ∈ (buildData cfg co2 ftemp hum pres aq iso).map Prod.fst) ↔
      cfg.bme280 = true := by
  rw [buildData_keys]
  cases aq <;> split_ifs <;> simp_all

theorem buildData_mem_pm25std (cfg : Config) (co2 : Option ℤ) (ftemp : Option ℚ)
    (hum pres : ℚ) (aq : Option PMReading) (iso : String) :
    ("airmon_pm25_standard" ∈ (buildData cfg co2 ftemp hum pres aq iso).map Prod.fst) ↔
      aq ≠ none := by
  rw [buildData_keys]
  cases aq <;> split_ifs <;> simp_all

theorem cycleStep_co2_const (cfg : Config) (inp : CycleInput) (st : LoopState)
    (hscd : cfg.scd40 = false) :
    (cycleStep cfg inp st).1.co2 = st.co2 := by
  by_cases h : cfg.pm25 = true ∧ inp.pmRead = none
  · unfold cycleStep
    rw [if_pos h]
    simp [cycleCo2, hscd]
  · rw [(cycleStep_state_proj cfg inp st h).2.1]
    simp [cycleCo2, hscd]

theorem cycleStep_airqual_const (cfg : Config) (inp : CycleInput) (st : LoopState)
    (hpm : cfg.pm25 = false) :
    (cycleStep cfg inp st).1.airqual = st.airqual := by
  have h : ¬(cfg.pm25 = true ∧ inp.pmRead = none) := by simp [hpm]
  rw [(cycleStep_state_proj cfg inp st h).2.2]
  simp [cycleAirqual, hpm]

theorem cycleStep_no_crash (cfg : Config) (inp : CycleInput) (st : LoopState)
    (hpm : cfg.pm25 = true) (hbme : cfg.bme280 = true) (r : PMReading)
    (hr : inp.pmRead = some r) :
    (cycleStep cfg inp st).2.2 ≠ Outcome.crash := by
  unfold cycleStep
  rw [if_neg (by simp [hr])]
  have hpv : cyclePMVals cfg inp = some r := by simp [cyclePMVals, hpm, hr]
  rw [if_neg (by simp [hpv])]
  obtain ⟨gl, hgl⟩ := googleLogStep_ok cfg (cycleFtemp cfg inp) inp.nowSec
    inp.appendOk st.logged_time hbme (cycleFtemp_some cfg inp hbme)
  simp only [hgl]
  by_cases h3 : st.screen = true
  · rw [if_pos h3]
    simp only [hpv, Option.map_some', particles2colorOpt_some]
    exact finishButtons_no_crash _ _ _ _
  · rw [if_neg h3]
    exact finishButtons_no_crash _ _ _ _

theorem runLoop_publish_origin (cfg : Config) :
    ∀ (inputs : List CycleInput) (st : LoopState) (d : List (String × JVal)),
      Event.publish d ∈ (runLoop cfg st inputs).1 →
      ∃ inp st2, d = cycleData cfg inp st2 := by
  intro inputs
  induction inputs with
  | nil =>
    intro st d hd
    simp [runLoop] at hd
  | cons inp rest ih =>
    intro st d hd
    unfold runLoop at hd
    rcases hc : cycleStep cfg inp st with ⟨st2, evs, oc⟩
    rw [hc] at hd
    have hfst : Event.publish d ∈ evs → d = cycleData cfg inp st :=
      fun hm => cycleStep_publish_inv cfg inp st d (by rw [hc]; exact hm)
    cases oc with
    | next =>
      simp at hd
      rcases hd with hd | hd
      · exact ⟨inp, st, hfst hd⟩
      · exact ih st2 d hd
    | halt => exact ⟨inp, st, hfst hd⟩
    | crash => exact ⟨inp, st, hfst hd⟩

theorem runLoop_co2_absent (cfg : Config) (hscd : cfg.scd40 = false) :
    ∀ (inputs : List CycleInput) (st : LoopState), st.co2 = none →
      ∀ d, Event.publish d ∈ (runLoop cfg st inputs).1 →
        "airmon_co2" ∉ d.map Prod.fst := by
  intro inputs
  induction inputs with
  | nil =>
    intro st hco2 d hd
    simp [runLoop] at hd
  | cons inp rest ih =>
    intro st hco2 d hd
    unfold runLoop at hd
    rcases hc : cycleStep cfg inp st with ⟨st2, evs, oc⟩
    rw [hc] at hd
    have habs : Event.publish d ∈ evs → "airmon_co2" ∉ d.map Prod.fst := by
      intro hm
      have hdd := cycleStep_publish_inv cfg inp st d (by rw [hc]; exact hm)
      subst hdd
      unfold cycleData
      rw [buildData_mem_co2]
      simp [cycleCo2, hscd, hco2, truthyZ]
    have hst2 : st2.co2 = none := by
      have hcc := cycleStep_co2_const cfg inp st hscd
      rw [hc] at hcc
      have hcc2 : st2.co2 = st.co2 := hcc
      rw [hcc2]
      exact hco2
    cases oc with
    | next =>
      simp at hd
      rcases hd with hd | hd
      · exact habs hd
      · exact ih st2 hst2 d hd
    | halt => exact habs hd
    | crash => exact habs hd

theorem runLoop_pm_absent (cfg : Config) (hpm : cfg.pm25 = false) :
    ∀ (inputs : List CycleInput) (st : LoopState), st.airqual = none →
      ∀ d, Event.publish d ∈ (runLoop cfg st inputs).1 →
        "airmon_pm25_standard" ∉ d.map Prod.fst := by
  intro inputs
  induction inputs with
  | nil =>
    intro st haq d hd
    simp [runLoop] at hd
  | cons inp rest ih =>
    intro st haq d hd
    unfold runLoop at hd
    rcases hc : cycleStep cfg inp st with ⟨st2, evs, oc⟩
    rw [hc] at hd
    have habs : Event.publish d ∈ evs → "airmon_pm25_standard" ∉ d.map Prod.fst := by
      intro hm
      have hdd := cycleStep_publish_inv cfg inp st d (by rw [hc]; exact hm)
      subst hdd
      unfold cycleData
      rw [buildData_mem_pm25std]
      simp [cycleAirqual, hpm, haq]
    have hst2 : st2.airqual = none := by
      have hcc := cycleStep_airqual_const cfg inp st hpm
      rw [hc] at hcc
      have hcc2 : st2.airqual = st.airqual := hcc
      rw [hcc2]
      exact haq
    cases oc with
    | next =>
      simp at hd
      rcases hd with hd | hd
      · exact habs hd
      · exact ih st2 hst2 d hd
    | halt => exact habs hd
    | crash => exact habs hd

theorem runLoop_humidity_absent (cfg : Config) (hb : cfg.bme280 = false)
    (inputs : List CycleInput) (st : LoopState) (d : List (String × JVal))
    (hd : Event.publish d ∈ (runLoop cfg st inputs).1) :
    "airmon_humidity" ∉ d.map Prod.fst := by
  obtain ⟨inp, st2, rfl⟩ := runLoop_publish_origin cfg inputs st d hd
  unfold cycleData
  rw [buildData_mem_humidity]
  simp [hb]

theorem runLoop_temp_absent (cfg : Config) (hp : cfg.pct2075 = false)
    (hb : cfg.bme280 = false)
    (inputs : List CycleInput) (st : LoopState) (d : List (String × JVal))
    (hd : Event.publish d ∈ (runLoop cfg st inputs).1) :
    "airmon_temp" ∉ d.map Prod.fst := by
  obtain ⟨inp, st2, rfl⟩ := runLoop_publish_origin cfg inputs st d hd
  unfold cycleData
  rw [buildData_mem_temp]
  simp [cycleFtemp, hp, hb, truthyQ]

theorem googleLogStep_fail_logged (cfg : Config) (ftemp : Option ℚ) (now : ℤ)
    (lt : Option ℤ) (gl : List Event × Option ℤ × List Line)
    (h : googleLogStep cfg ftemp now false lt = Except.ok gl) :
    gl.2.1 = lt := by
  unfold googleLogStep at h
  split_ifs at h <;>
    first
      | (simp only [Except.ok.injEq] at h
         subst h
         rfl)
      | simp_all

/-! ## Claim theorems -/

/-- C2: The claim is false on the code.  `particles2color` is an
`if`/`elif` chain whose conditions are checked in ascending-threshold
order, so the FIRST matching condition wins, not the last: any input with
pm25 > 2 or pm100 > 2 yields olive, so (pm25=13,pm100=0) and
(pm25=40,pm100=0) both evaluate to olive — not to the claimed yellow and
orange — and no input whatsoever can produce yellow, orange, red, purple
or magenta. -/
theorem C2_first_match_shadows_later_colors :
    particles2color 0 0 0 = Color.green
  ∧ particles2color 0 3 0 = Color.olive
  ∧ particles2color 0 13 0 = Color.olive
  ∧ particles2color 0 40 0 = Color.olive
  ∧ ∀ a b c : ℚ, particles2color a b c = Color.green ∨
      particles2color a b c = Color.olive := by
  refine ⟨by norm_num [particles2color], by norm_num [particles2color],
    by norm_num [particles2color], by norm_num [particles2color], ?_⟩
  intro a b c
  by_cases h : b > 2 ∨ c > 2
  · right
    simp only [particles2color, if_pos h]
  · left
    have hb : b ≤ 2 := le_of_not_lt (fun hh => h (Or.inl hh))
    have hc : c ≤ 2 := le_of_not_lt (fun hh => h (Or.inr hh))
    have h2 : ¬(b > 12 ∨ c > 55) := by rintro (h1 | h1) <;> linarith
    have h3 : ¬(b > 35.4 ∨ c > 155) := by rintro (h1 | h1) <;> linarith
    have h4 : ¬(b > 55.4 ∨ c > 254) := by rintro (h1 | h1) <;> linarith
    have h5 : ¬(b > 150 ∨ c > 355) := by rintro (h1 | h1) <;> linarith
    have h6 : ¬(b > 250 ∨ c > 425) := by rintro (h1 | h1) <;> linarith
    simp only [particles2color, if_neg h, if_neg h2, if_neg h3, if_neg h4,
      if_neg h5, if_neg h6]

/-- C3: A particulate `RuntimeError` aborts the cycle: the handler logs a
warning and executes `continue`, so the cycle's only events are the
standard start-of-cycle sleep and the warning — no snapshot publish, no
gauge update, no sheet append, no display render — the global `data`,
`logged_time` and `screen` are untouched, no sleep is executed after the
failure point, and the loop proceeds to the next cycle (the process does
not terminate). -/
theorem C3_pm_read_failure_skips_cycle (cfg : Config) (inp : CycleInput)
    (st : LoopState) (hpm : cfg.pm25 = true) (hfail : inp.pmRead = none) :
    cycleStep cfg inp st =
      ({ st with co2 := cycleCo2 cfg inp st },
       [Event.sleep (effInterval cfg), Event.warn], Outcome.next)
  ∧ (cycleStep cfg inp st).1.data = st.data
  ∧ (cycleStep cfg inp st).1.logged_time = st.logged_time
  ∧ (cycleStep cfg inp st).2.2 = Outcome.next := by
  unfold cycleStep
  rw [if_pos ⟨hpm, hfail⟩]
  exact ⟨rfl, rfl, rfl, rfl⟩

/-- Witness for C3 at a concrete failing cycle. -/
theorem C3_witness :
    (cycleStep cfgPM (inpPMFail 0) (initialState "airmon" "t0" cfgPM)).2.1
      = [Event.sleep 5, Event.warn] := by
  have h := C3_pm_read_failure_skips_cycle cfgPM (inpPMFail 0)
    (initialState "airmon" "t0" cfgPM) rfl rfl
  rw [h.1]
  rfl

/-- C7: `get_pm_description` is total on [0,500) with the claimed bands
and exclusive upper boundaries ("usg" is the source's spelling of
unhealthy-for-sensitive-groups), and yields no band at or above 500;
in particular 51 classifies as moderate, not good. -/
theorem C7_pm_band_classification :
    (∀ v : ℤ, 0 ≤ v → v < 500 → (get_pm_description v).isSome = true)
  ∧ (∀ v : ℤ, 500 ≤ v → get_pm_description v = none)
  ∧ (∀ v : ℤ, v < 51 → get_pm_description v = some "good")
  ∧ (∀ v : ℤ, 51 ≤ v → v < 101 → get_pm_description v = some "moderate")
  ∧ (∀ v : ℤ, 101 ≤ v → v < 151 → get_pm_description v = some "usg")
  ∧ (∀ v : ℤ, 151 ≤ v → v < 201 → get_pm_description v = some "unhealthy")
  ∧ (∀ v : ℤ, 201 ≤ v → v < 300 → get_pm_description v = some "very unhealthy")
  ∧ (∀ v : ℤ, 300 ≤ v → v < 500 → get_pm_description v = some "hazardous") := by
  refine ⟨?_, ?_, ?_, ?_, ?_, ?_, ?_, ?_⟩
  · intro v h1 h2
    unfold get_pm_description
    split_ifs <;> first | rfl | omega
  · intro v h1
    unfold get_pm_description
    split_ifs <;> first | rfl | omega
  · intro v h1
    unfold get_pm_description
    split_ifs <;> first | rfl | omega
  all_goals
    intro v h1 h2
    unfold get_pm_description
    split_ifs <;> first | rfl | omega

/-- Witness for C7: the boundary value 51 is moderate. -/
theorem C7_witness : get_pm_description 51 = some "moderate" :=
  C7_pm_band_classification.2.2.2.1 51 (by decide) (by decide)

/-- C9: The claim is false on the code.  When the gate suppresses a log,
the hint is computed as `args.interval - elapsed` (the SAMPLING interval),
not `args.ginterval - elapsed` (the log interval): at 100 s after the last
append with interval=5 and ginterval=300 the surfaced hint is -95, while
the claimed value is 200. -/
theorem C9_hint_uses_sampling_interval :
    timeRemainingHint cfgG 100 0 = -95
  ∧ cfgG.ginterval - (100 - 0) = 200
  ∧ googleLogStep cfgG none 100 true (some 0) =
      Except.ok ([], some 0, [Line.nextLoggingHint (-95)])
  ∧ (-95 : ℤ) ≠ 200 := by
  refine ⟨by decide, by decide, ?_, by decide⟩
  rfl

/-- C10: With the screen on and the particulate sensor disabled,
`particles2color(None, None, None)` is evaluated: the first `None > 2`
comparison raises an uncaught `TypeError`, which terminates the sampling
loop (and the process). -/
theorem C10_display_without_pm_crashes (cfg : Config) (inp : CycleInput)
    (st : LoopState) (hdisp : cfg.st7789 = true) (hscr : st.screen = true)
    (hpm : cfg.pm25 = false) (haq : st.airqual = none) :
    particles2colorOpt none none none = Except.error ()
  ∧ (cycleStep cfg inp st).2.2 = Outcome.crash := by
  refine ⟨rfl, ?_⟩
  unfold cycleStep
  rw [if_neg (by simp [hpm])]
  rw [if_neg (by simp [cycleAirqual, hpm, haq])]
  cases hgl : googleLogStep cfg (cycleFtemp cfg inp) inp.nowSec inp.appendOk
      st.logged_time with
  | error e =>
    -- the cycle already dies in the gate-open debug logging; the process
    -- terminates either way.
    simp only [hgl]
  | ok gl =>
    simp only [hgl]
    rw [if_pos hscr]
    have hpv : cyclePMVals cfg inp = none := by simp [cyclePMVals, hpm]
    simp only [hpv, Option.map_none', particles2colorOpt_pm25_none]

/-- Witness for C10 at a concrete display-on, particulate-off cycle. -/
theorem C10_witness :
    (cycleStep cfg10 (inpG 0) st10).2.2 = Outcome.crash :=
  (C10_display_without_pm_crashes cfg10 (inpG 0) st10 rfl rfl rfl rfl).2

/-- C4: The gate logic itself matches the claim — with the remote log
enabled an append is attempted iff no prior successful append exists or
strictly more than `ginterval` seconds have elapsed, a successful append
updates the gate to the current time, and the 0/100/301/305 s scenario
(run with the BME280 enabled) yields exactly the appends at 0 s and
301 s.  BUT the append path is only reachable with a BME280: the
gate-open branch first evaluates the debug f-string at src/airmon.py line
363, which raises an uncaught `TypeError`/`AttributeError` whenever
`ftemp` is `None` or the BME280 is disabled, so under such a
configuration (e.g. `cfgG`) the process crashes in its first gate-open
cycle before `append_row`, and zero appends ever occur — refuting the
claim's iff and its scenario for those configurations. -/
theorem C4_log_gate :
    (∀ (cfg : Config) (ftemp : ℚ) (now : ℤ) (ok : Bool) (lt : Option ℤ),
      cfg.google = true → cfg.bme280 = true →
      ∃ gl, googleLogStep cfg (some ftemp) now ok lt = Except.ok gl
        ∧ (gl.1.filter isAppend = [Event.sheetAppendAttempt now] ↔
            (lt = none ∨ ∃ l, lt = some l ∧ now - l > cfg.ginterval))
        ∧ (ok = true → shouldLog cfg.ginterval now lt = true →
            gl.2.1 = some now))
  ∧ (runLoop cfgGB (initialState "airmon" "t0" cfgGB)
        [inpG 0, inpG 100, inpG 301, inpG 305]).1.filter isAppend
      = [Event.sheetAppendAttempt 0, Event.sheetAppendAttempt 301]
  ∧ (∀ (cfg : Config) (ftemp : Option ℚ) (now : ℤ) (ok : Bool) (lt : Option ℤ),
      cfg.google = true → shouldLog cfg.ginterval now lt = true →
      (ftemp = none ∨ cfg.bme280 = false) →
      googleLogStep cfg ftemp now ok lt = Except.error ())
  ∧ (cycleStep cfgG (inpG 0) (initialState "airmon" "t0" cfgG)).2.2
      = Outcome.crash
  ∧ (runLoop cfgG (initialState "airmon" "t0" cfgG)
        [inpG 0, inpG 100, inpG 301, inpG 305]).1.filter isAppend = [] := by
  refine ⟨?_, by
    norm_num [runLoop, cycleStep, cfgGB, cfgG, inpG, initialState, initialData,
      cycleCo2, cycleFtemp, cycleAirqual, cyclePMVals, cycleData, buildData,
      publishDeltas, airqualFields, truthyZ, truthyQ, celsius2fahrenheit,
      googleLogStep, shouldLog, timeRemainingHint, gaugeEventsNonPM,
      finishButtons, effInterval, isAppend, List.filter], ?_, by decide,
    by decide⟩
  · intro cfg ftemp now ok lt hg hbme
    have hcond : ¬((some ftemp : Option ℚ) = none ∨ cfg.bme280 = false) := by
      simp [hbme]
    by_cases hsl : shouldLog cfg.ginterval now lt = true
    · cases ok with
      | true =>
        refine ⟨([Event.sheetAppendAttempt now], some now, []), ?_, ?_, ?_⟩
        · unfold googleLogStep
          rw [if_pos hg, if_pos hsl, if_neg hcond]
          rfl
        · rw [← shouldLog_iff]
          simp [isAppend, List.filter, hsl]
        · intro _ _
          rfl
      | false =>
        refine ⟨([Event.sheetAppendAttempt now, Event.warn], lt, []), ?_, ?_, ?_⟩
        · unfold googleLogStep
          rw [if_pos hg, if_pos hsl, if_neg hcond]
          rfl
        · rw [← shouldLog_iff]
          simp [isAppend, List.filter, hsl]
        · intro hok _
          cases hok
    · refine ⟨([], lt,
        [Line.nextLoggingHint (timeRemainingHint cfg now (lt.getD 0))]),
        ?_, ?_, ?_⟩
      · unfold googleLogStep
        rw [if_pos hg, if_neg hsl]
      · rw [← shouldLog_iff]
        simp [hsl]
      · intro _ hcontra
        exact absurd hcontra hsl
  · intro cfg ftemp now ok lt hg hopen hc
    exact googleLogStep_crash cfg ftemp now ok lt hg hopen hc

/-- Witness for C4: with a BME280 (so the debug line cannot crash) the
gate opens at 301 s when the last append was at 0 s with interval 300 s. -/
theorem C4_witness :
    ∃ gl, googleLogStep cfgGB (some 32) 301 true (some 0) = Except.ok gl
      ∧ gl.1.filter isAppend = [Event.sheetAppendAttempt 301] := by
  obtain ⟨gl, h1, h2, h3⟩ := C4_log_gate.1 cfgGB 32 301 true (some 0) rfl rfl
  exact ⟨gl, h1, h2.mpr (Or.inr ⟨0, rfl, by decide⟩)⟩

/-- C5: When an append is actually attempted (which requires the BME280,
otherwise the pre-append debug line crashes the process first) and
`sheet.append_row` fails, the bare `except:` catches it and only logs a
warning; `logged_time` keeps its previous value, so any later instant at
which the gate was already open stays eligible (in particular the very
next cycle); and the surrounding cycle is unaffected: the snapshot is
still published, the loop neither crashes nor changes its gate state. -/
theorem C5_append_failure_leaves_gate (cfg : Config) (ftemp : ℚ)
    (now later : ℤ) (lt : Option ℤ) (hg : cfg.google = true)
    (hbme : cfg.bme280 = true)
    (hopen : shouldLog cfg.ginterval now lt = true) (hle : now ≤ later) :
    googleLogStep cfg (some ftemp) now false lt =
      Except.ok ([Event.sheetAppendAttempt now, Event.warn], lt, [])
  ∧ shouldLog cfg.ginterval later lt = true
  ∧ (∀ (inp : CycleInput) (st : LoopState) (r : PMReading),
      cfg.pm25 = true → inp.pmRead = some r → inp.appendOk = false →
      ((cycleStep cfg inp st).1.logged_time = st.logged_time
        ∧ (cycleStep cfg inp st).2.2 ≠ Outcome.crash
        ∧ Event.publish (cycleData cfg inp st) ∈ (cycleStep cfg inp st).2.1)) := by
  refine ⟨?_, ?_, ?_⟩
  · unfold googleLogStep
    rw [if_pos hg, if_pos hopen, if_neg (by simp [hbme])]
    rfl
  · cases lt with
    | none => rfl
    | some l =>
      simp only [shouldLog, decide_eq_true_eq] at hopen ⊢
      omega
  · intro inp st r hpm hr hok
    have h1 : ¬(cfg.pm25 = true ∧ inp.pmRead = none) := by simp [hr]
    have hpv : cyclePMVals cfg inp = some r := by simp [cyclePMVals, hpm, hr]
    have h2 : ¬(cycleAirqual cfg inp st ≠ none ∧ cyclePMVals cfg inp = none) := by
      simp [hpv]
    obtain ⟨gl, hgl⟩ := googleLogStep_ok cfg (cycleFtemp cfg inp) inp.nowSec
      inp.appendOk st.logged_time hbme (cycleFtemp_some cfg inp hbme)
    refine ⟨?_, cycleStep_no_crash cfg inp st hpm hbme r hr,
      cycleStep_publish_self cfg inp st h1⟩
    rw [cycleStep_logged cfg inp st h1 h2 gl hgl]
    rw [hok] at hgl
    exact googleLogStep_fail_logged cfg (cycleFtemp cfg inp) inp.nowSec
      st.logged_time gl hgl

/-- Witness for C5 at a concrete open-gate failing append (BME280 on). -/
theorem C5_witness :
    googleLogStep cfgB (some 32) 0 false none =
      Except.ok ([Event.sheetAppendAttempt 0, Event.warn], none, []) :=
  (C5_append_failure_leaves_gate cfgB 32 0 0 none rfl rfl rfl (le_refl 0)).1

/-- C1: The claim is false on the code.  The publish step rebinds the
global `data` to a fresh EMPTY dict and then populates it in place with
successive `update` calls while the JSON server thread may serialize
`data` at any moment, so a concurrent reader can observe the empty (or any
partially-populated) dict — a document that is neither the complete
previous snapshot nor the complete current one (both of which always
contain at least `airmon_time`). -/
theorem C1_incomplete_snapshot_observable :
    (∀ (cfg : Config) (co2 : Option ℤ) (ftemp : Option ℚ) (hum pres : ℚ)
       (aq : Option PMReading) (iso : String),
       ([] : List (String × JVal)) ∈ publishStates cfg co2 ftemp hum pres aq iso
       ∧ buildData cfg co2 ftemp hum pres aq iso ≠ [])
  ∧ initialData "airmon" "t0" ≠ []
  ∧ ([] : List (String × JVal)) ∈
      publishStates cfgC6 (some 800) none 0 0 none "t1" := by
  refine ⟨?_, by simp [initialData], by decide⟩
  intro cfg co2 ftemp hum pres aq iso
  constructor
  · simp [publishStates, publishDeltas, List.scanl]
  · simp [buildData, publishDeltas]

/-- C8: The claim is false on the code.  Line 128 initializes the global
`data` with both `airmon_time` and `airmon_station`, but the per-cycle
rebuild at lines 328-347 starts from `data = {}` and never writes
`airmon_station` again, so every snapshot published by the sampling loop
contains the capture timestamp but NOT the station name. -/
theorem C8_station_dropped_from_cycle_snapshots :
    (∀ (cfg : Config) (co2 : Option ℤ) (ftemp : Option ℚ) (hum pres : ℚ)
       (aq : Option PMReading) (iso : String),
       "airmon_time" ∈ (buildData cfg co2 ftemp hum pres aq iso).map Prod.fst
       ∧ "airmon_station" ∉ (buildData cfg co2 ftemp hum pres aq iso).map Prod.fst)
  ∧ "airmon_station" ∈ (initialData "airmon" "t0").map Prod.fst
  ∧ ((cycleStep cfgG (inpG 0) (initialState "airmon" "t0" cfgG)).1.data).map Prod.fst
      = ["airmon_time"] :=
  ⟨fun cfg co2 ftemp hum pres aq iso =>
    ⟨buildData_mem_time cfg co2 ftemp hum pres aq iso,
     buildData_no_station cfg co2 ftemp hum pres aq iso⟩,
   by simp [initialData], by decide⟩

/-- C6 counterexample: with the SCD40 enabled, a successful CO2 reading of
0 ppm leaves `airmon_co2` out of the published snapshot (the source guards
the field with Python truthiness, `if co2:`, not with presence), refuting
"present if and only if its sensor is enabled and its read succeeded". -/
theorem C6_counterexample :
    cfgC6.scd40 = true
  ∧ "airmon_co2" ∉ ((cycleStep cfgC6 inpC6 stC6).1.data).map Prod.fst :=
  ⟨rfl, by decide⟩

/-- C6 (amended): in every published snapshot, an optional field is
present iff its sensor is enabled, its read succeeded this cycle, AND the
value is truthy where the source tests the value (`if co2:`, `if ftemp:`:
a zero CO2 or a 0 °F temperature is dropped); humidity/pressure depend
only on BME280 enablement, the particulate fields only on PM25 enablement.
A disabled sensor's fields are absent from every snapshot published during
the whole process lifetime. -/
theorem C6_field_presence :
    (∀ (cfg : Config) (inp : CycleInput) (st : LoopState),
      (cfg.scd40 = false → st.co2 = none) →
      (cfg.pm25 = false → st.airqual = none) →
      ¬(cfg.pm25 = true ∧ inp.pmRead = none) →
      (("airmon_co2" ∈ ((cycleStep cfg inp st).1.data).map Prod.fst) ↔
          (cfg.scd40 = true ∧ inp.co2val ≠ 0))
      ∧ (("airmon_temp" ∈ ((cycleStep cfg inp st).1.data).map Prod.fst) ↔
          ((cfg.pct2075 = true ∧ celsius2fahrenheit inp.pctTempC ≠ 0)
            ∨ (cfg.pct2075 = false ∧ cfg.bme280 = true ∧
               celsius2fahrenheit inp.bmeTempC ≠ 0)))
      ∧ (("airmon_humidity" ∈ ((cycleStep cfg inp st).1.data).map Prod.fst) ↔
          cfg.bme280 = true)
      ∧ (("airmon_pressure" ∈ ((cycleStep cfg inp st).1.data).map Prod.fst) ↔
          cfg.bme280 = true)
      ∧ (("airmon_pm25_standard" ∈ ((cycleStep cfg inp st).1.data).map Prod.fst) ↔
          cfg.pm25 = true))
  ∧ (∀ (cfg : Config) (hostname iso0 : String) (inputs : List CycleInput)
       (d : List (String × JVal)), cfg.scd40 = false →
       Event.publish d ∈ (runLoop cfg (initialState hostname iso0 cfg) inputs).1 →
       "airmon_co2" ∉ d.map Prod.fst)
  ∧ (∀ (cfg : Config) (hostname iso0 : String) (inputs : List CycleInput)
       (d : List (String × JVal)), cfg.pm25 = false →
       Event.publish d ∈ (runLoop cfg (initialState hostname iso0 cfg) inputs).1 →
       "airmon_pm25_standard" ∉ d.map Prod.fst)
  ∧ (∀ (cfg : Config) (hostname iso0 : String) (inputs : List CycleInput)
       (d : List (String × JVal)), cfg.bme280 = false →
       Event.publish d ∈ (runLoop cfg (initialState hostname iso0 cfg) inputs).1 →
       "airmon_humidity" ∉ d.map Prod.fst)
  ∧ (∀ (cfg : Config) (hostname iso0 : String) (inputs : List CycleInput)
       (d : List (String × JVal)), cfg.pct2075 = false → cfg.bme280 = false →
       Event.publish d ∈ (runLoop cfg (initialState hostname iso0 cfg) inputs).1 →
       "airmon_temp" ∉ d.map Prod.fst) := by
  refine ⟨?_, ?_, ?_, ?_, ?_⟩
  · intro cfg inp st hco2 haq hpub
    rw [(cycleStep_state_proj cfg inp st hpub).1]
    unfold cycleData
    rw [buildData_mem_co2, buildData_mem_temp, buildData_mem_humidity,
      buildData_mem_pressure, buildData_mem_pm25std]
    refine ⟨?_, ?_, Iff.rfl, Iff.rfl, ?_⟩
    · cases hcs : cfg.scd40 with
      | false => simp [cycleCo2, hcs, hco2 hcs, truthyZ]
      | true => simp [cycleCo2, hcs, truthyZ]
    · cases hp : cfg.pct2075 with
      | true => simp [cycleFtemp, hp, truthyQ]
      | false =>
        cases hb : cfg.bme280 with
        | true => simp [cycleFtemp, hp, hb, truthyQ]
        | false => simp [cycleFtemp, hp, hb, truthyQ]
    · cases hpm : cfg.pm25 with
      | false => simp [cycleAirqual, hpm, haq hpm]
      | true =>
        have hne : inp.pmRead ≠ none := fun hn => hpub ⟨hpm, hn⟩
        simp [cycleAirqual, hpm, hne]
  · intro cfg hostname iso0 inputs d hscd hd
    exact runLoop_co2_absent cfg hscd inputs _ rfl d hd
  · intro cfg hostname iso0 inputs d hpm hd
    exact runLoop_pm_absent cfg hpm inputs _ rfl d hd
  · intro cfg hostname iso0 inputs d hb hd
    exact runLoop_humidity_absent cfg hb inputs _ d hd
  · intro cfg hostname iso0 inputs d hp hb hd
    exact runLoop_temp_absent cfg hp hb inputs _ d hd

/-- Witness for C1: the empty intermediate dict is observable during a
concrete publish. -/
theorem C1_witness :
    ([] : List (String × JVal)) ∈
      publishStates cfgG none none 0 0 none "t2" :=
  (C1_incomplete_snapshot_observable.1 cfgG none none 0 0 none "t2").1

/-- Witness for C8: a concrete cycle snapshot has no station field. -/
theorem C8_witness :
    "airmon_station" ∉ (buildData cfgG none none 0 0 none "t2").map Prod.fst :=
  (C8_station_dropped_from_cycle_snapshots.1 cfgG none none 0 0 none "t2").2

/-- Witness for C9: the concrete hint value. -/
theorem C9_witness : timeRemainingHint cfgG 100 0 = -95 :=
  C9_hint_uses_sampling_interval.1

/-- Witness for C6 (amended): under `cfgC6` (SCD40 enabled, CO2 read 0)
the `airmon_co2` field is present iff the value is nonzero — here absent. -/
theorem C6_witness :
    ("airmon_co2" ∈ ((cycleStep cfgC6 inpC6 stC6).1.data).map Prod.fst) ↔
      (cfgC6.scd40 = true ∧ inpC6.co2val ≠ 0) :=
  (C6_field_presence.1 cfgC6 inpC6 stC6 (by intro h; exact absurd h (by decide))
    (fun _ => rfl) (by simp [cfgC6])).1

end Airmon
